import Mathlib

/-!
Verification of the CloudFilesProvider policy layer
(`src/lib/platform/windows/CloudFilesProvider/CloudFilesProvider.cpp`).

The development shallowly embeds the provider's pure logic:

* wide strings (`std::wstring`) are lists of 16-bit code units (`WString`);
* byte buffers (`std::vector<BYTE>`) are lists of naturals (`ByteBuffer`);
* `HRESULT` values are integers (signed 32-bit values; `FAILED hr ↔ hr < 0`);
* host calls (`CfExecute`, `CfDisconnectSyncRoot`, `CfUnregisterSyncRoot`,
  `CreateFileW`, ...) are modelled by recording the call's arguments in the
  result of each operation, with environments supplying the host's answers;
* the single worker loop spawned by `Initialize` and the work queue it
  drains are modelled as a labelled transition system (`WStep`) whose
  events are the lock-protected atomic sections of the C++ code.
-/

/-- A `std::wstring` as its list of 16-bit code units. -/
abbrev WString := List Nat

/-- A `std::vector<BYTE>` as a list of byte values. -/
abbrev ByteBuffer := List Nat

/-- The `S_OK` success `HRESULT`. -/
def S_OK : Int := 0

/-- The `STATUS_SUCCESS` NTSTATUS used as `CompletionStatus`. -/
def STATUS_SUCCESS : Int := 0

/-- The `FAILED(hr)` macro: an `HRESULT` is a failure iff its sign bit is
set, i.e. iff it is negative as a signed 32-bit integer. -/
def FAILED (hr : Int) : Prop := hr < 0

instance (hr : Int) : Decidable (FAILED hr) := by unfold FAILED; infer_instance

/-- The `HRESULT_FROM_WIN32` macro on a Win32 error code: `0` maps to
`S_OK`, any other code `e` maps to `0x80070000 | (e & 0xFFFF)` read as a
signed 32-bit integer (hence negative). -/
def HRESULT_FROM_WIN32 (e : Nat) : Int :=
  if e = 0 then 0 else (0x80070000 + (e : Int) % 65536) - 4294967296

/-- The distinguished invalid connection-key sentinel
`CF_CONNECTION_KEY_INVALID`. Its concrete value is irrelevant to the
provider logic, which only ever compares against it. -/
def CF_CONNECTION_KEY_INVALID : Int := 0

/-- The `CF_TRANSFER_KEY_INVALID` sentinel that `HydrateFile` passes as
`opInfo.TransferKey`. -/
def CF_TRANSFER_KEY_INVALID : Int := 0

/-- The arguments of one `CfExecute(CF_OPERATION_TYPE_TRANSFER_DATA)`
call: connection key, transfer key, the transferred buffer, and the
`TransferData` parameters (`Length`, `Offset.QuadPart`,
`CompletionStatus`). -/
structure TransferCmd where
  connectionKey : Int
  transferKey : Int
  buffer : ByteBuffer
  length : Nat
  offset : Int
  completionStatus : Int
deriving Repr, DecidableEq

/-- The provider state relevant to path handling: `m_syncRootPath` and
`m_connectionKey`. -/
structure ProvState where
  syncRootPath : WString
  connectionKey : Int
deriving Repr, DecidableEq

/-- `CloudFilesProvider::GetFullPath`: `m_syncRootPath + L"\\" + relativePath`
(code unit 92 is the backslash). -/
def GetFullPath (s : ProvState) (relativePath : WString) : WString :=
  s.syncRootPath ++ [92] ++ relativePath

/-- Environment answering the file-open and host calls made by one
file operation: the handle returned by `GetFileHandle` (`none` models
`INVALID_HANDLE_VALUE`), the `GetLastError` value after a failed open,
and the `HRESULT` the host returns for the operation's `Cf*` call. -/
structure FileOpEnv where
  openHandle : Option Nat
  lastError : Nat
  hostResult : Int
deriving Repr, DecidableEq

/-- The observable outcome of `CloudFilesProvider::HydrateFile`: the
returned `HRESULT`, the full path handed to `CreateFileW`, the issued
transfer commands, the handles passed to `CloseHandle`, and the values
the progress callback was invoked with. -/
structure HydrateResult where
  hr : Int
  targetPath : WString
  transfers : List TransferCmd
  closedHandles : List Nat
  progressCalls : List Rat
deriving Repr, DecidableEq

/-- `CloudFilesProvider::HydrateFile`: computes the full path, opens the
target file; on open failure returns `HRESULT_FROM_WIN32(GetLastError())`
with no transfer, no close and no progress call; on success issues one
full-buffer transfer (`Offset.QuadPart = 0`, `Length = data.size()`,
`CompletionStatus = STATUS_SUCCESS`, `TransferKey =
CF_TRANSFER_KEY_INVALID`), then closes the handle, then (if a progress
callback was supplied) invokes it once with `1.0`, and returns the
`CfExecute` result. -/
def HydrateFile (s : ProvState) (relativePath : WString) (env : FileOpEnv)
    (data : ByteBuffer) (hasProgressCallback : Bool) : HydrateResult :=
  let fullPath := GetFullPath s relativePath
  match env.openHandle with
  | none => ⟨HRESULT_FROM_WIN32 env.lastError, fullPath, [], [], []⟩
  | some h =>
      ⟨env.hostResult, fullPath,
       [⟨s.connectionKey, CF_TRANSFER_KEY_INVALID, data, data.length, 0,
         STATUS_SUCCESS⟩],
       [h],
       if hasProgressCallback then [1] else []⟩

/-- The observable outcome of `SetInSyncState` / `SetPinState`: the path
opened, the returned `HRESULT`, and the handles closed. -/
structure StateChangeResult where
  targetPath : WString
  hr : Int
  closedHandles : List Nat
deriving Repr, DecidableEq

/-- `CloudFilesProvider::SetInSyncState`: opens the file through
`GetFileHandle` (hence through `GetFullPath`), issues `CfSetInSyncState`,
closes the handle, and returns the host status. -/
def SetInSyncState (s : ProvState) (relativePath : WString)
    (env : FileOpEnv) : StateChangeResult :=
  match env.openHandle with
  | none => ⟨GetFullPath s relativePath, HRESULT_FROM_WIN32 env.lastError, []⟩
  | some h => ⟨GetFullPath s relativePath, env.hostResult, [h]⟩

/-- `CloudFilesProvider::SetPinState`: same shape as `SetInSyncState`
with `CfSetPinState` as the host call. -/
def SetPinState (s : ProvState) (relativePath : WString)
    (env : FileOpEnv) : StateChangeResult :=
  match env.openHandle with
  | none => ⟨GetFullPath s relativePath, HRESULT_FROM_WIN32 env.lastError, []⟩
  | some h => ⟨GetFullPath s relativePath, env.hostResult, [h]⟩

/-- FNV-1a 64-bit hash over a byte list, the algorithm behind MSVC's
`std::hash<std::wstring>` used by `CreatePlaceholderInfo`. -/
def fnv1a64 (bytes : List Nat) : Nat :=
  bytes.foldl (fun h b => ((h ^^^ (b % 256)) * 1099511628211) % 2 ^ 64)
    14695981039346656037

/-- The byte representation `std::hash<std::wstring>` hashes: the wide
string's code units laid out as little-endian byte pairs. -/
def wstringBytes (s : WString) : List Nat :=
  s.flatMap (fun c => [c % 256, c / 256 % 256])

/-- `std::hash<std::wstring>{}(relativePath)` as used at line 396-397 of
the source. -/
def hashWString (s : WString) : Nat := fnv1a64 (wstringBytes s)

/-- Little-endian byte serialization of a natural into `k` bytes,
modelling `memcpy(fileIdentity, &hashValue, sizeof(size_t))`. -/
def natToLEBytes : Nat → Nat → List Nat
  | _, 0 => []
  | n, k + 1 => n % 256 :: natToLEBytes (n / 256) k

/-- The fields of `CF_PLACEHOLDER_CREATE_INFO` that
`CreatePlaceholderInfo` fills: the copied relative file name, the
identity bytes, and `FileIdentityLength`. -/
structure CF_PLACEHOLDER_CREATE_INFO where
  relativeFileName : WString
  fileIdentity : List Nat
  fileIdentityLength : Nat
deriving Repr, DecidableEq

/-- `CloudFilesProvider::CreatePlaceholderInfo` (success path of the heap
allocations): copies the relative path into `RelativeFileName`, hashes
the path with `std::hash<std::wstring>`, stores the hash value's
`sizeof(size_t) = 8` bytes as `FileIdentity`, and sets
`FileIdentityLength = sizeof(size_t)`. -/
def CreatePlaceholderInfo (relativePath : WString) : CF_PLACEHOLDER_CREATE_INFO :=
  ⟨relativePath, natToLEBytes (hashWString relativePath) 8, 8⟩

/-- The arguments of the `CfCreatePlaceholders` call made by
`CloudFilesProvider::CreatePlaceholder`, plus the returned `HRESULT`. -/
structure PlaceholderCallLog where
  syncRootPath : WString
  info : CF_PLACEHOLDER_CREATE_INFO
  hr : Int
deriving Repr, DecidableEq

/-- `CloudFilesProvider::CreatePlaceholder`: builds the placeholder info
from the relative path and passes `m_syncRootPath` to
`CfCreatePlaceholders`, returning the host status (`hostResult`). -/
def CreatePlaceholder (s : ProvState) (relativePath : WString)
    (hostResult : Int) : PlaceholderCallLog :=
  ⟨s.syncRootPath, CreatePlaceholderInfo relativePath, hostResult⟩

/-- The guarded disconnect block shared by `Shutdown` (lines 79-82) and
`UnregisterSyncRoot` (lines 144-147):
`if (m_connectionKey != CF_CONNECTION_KEY_INVALID) {
CfDisconnectSyncRoot(m_connectionKey); m_connectionKey =
CF_CONNECTION_KEY_INVALID; }`. Returns the new `m_connectionKey` and the
keys passed to `CfDisconnectSyncRoot`. -/
def disconnectIfConnected (key : Int) : Int × List Int :=
  if key ≠ CF_CONNECTION_KEY_INVALID then (CF_CONNECTION_KEY_INVALID, [key])
  else (key, [])

/-- The observable outcome of `CloudFilesProvider::UnregisterSyncRoot`:
the new connection key, the keys passed to `CfDisconnectSyncRoot`, the
paths passed to `CfUnregisterSyncRoot`, whether the failure branch logged
a report, and the returned `HRESULT`. -/
structure UnregResult where
  connectionKey : Int
  disconnectCalls : List Int
  unregisterCalls : List WString
  reported : Bool
  hr : Int
deriving Repr, DecidableEq

/-- `CloudFilesProvider::UnregisterSyncRoot`: runs the guarded disconnect
block, then calls `CfUnregisterSyncRoot(syncRootPath)`; on failure it
logs the status, and in every case it returns the host status
(`return hr;`). -/
def UnregisterSyncRoot (key : Int) (syncRootPath : WString)
    (hostUnregisterResult : Int) : UnregResult :=
  let d := disconnectIfConnected key
  ⟨d.1, d.2, [syncRootPath], decide (hostUnregisterResult < 0),
   hostUnregisterResult⟩

/-- Outcome of the `CreateDirectoryW` call in `RegisterSyncRoot`:
success, failure with `ERROR_ALREADY_EXISTS` (tolerated), or failure with
any other error code. -/
inductive CreateDirOutcome
  | ok
  | alreadyExists
  | failed (err : Nat)
deriving Repr, DecidableEq

/-- Environment answering the host calls made by `RegisterSyncRoot`: the
directory-creation outcome, the `CfRegisterSyncRoot` and
`CfConnectSyncRoot` results, and the connection key handed back on a
successful connect. -/
structure RegEnv where
  createDir : CreateDirOutcome
  hostRegisterResult : Int
  hostConnectResult : Int
  newConnectionKey : Int
deriving Repr, DecidableEq

/-- `CloudFilesProvider::RegisterSyncRoot`: first assigns
`m_syncRootPath = syncRootPath` (line 91), then creates the directory
(failure other than `ERROR_ALREADY_EXISTS` aborts), then registers the
sync root (`CfRegisterSyncRoot`), then connects (`CfConnectSyncRoot`,
storing the new connection key); every failure path returns after the
path has already been stored. `CreateSyncRegistration` always returns
`S_OK` and is not modelled separately. -/
def RegisterSyncRoot (s : ProvState) (env : RegEnv)
    (syncRootPath : WString) : ProvState × Int :=
  let s1 : ProvState := { s with syncRootPath := syncRootPath }
  match env.createDir with
  | .failed e => (s1, HRESULT_FROM_WIN32 e)
  | _ =>
    if env.hostRegisterResult < 0 then (s1, env.hostRegisterResult)
    else if env.hostConnectResult < 0 then (s1, env.hostConnectResult)
    else ({ s1 with connectionKey := env.newConnectionKey }, S_OK)

/-- A queued fetch work item as captured by the lambda pushed in
`OnFetchData`: the normalized relative path and the transfer key
(`CallbackParameters->FetchData.RequiredFileOffset`). -/
structure FetchWorkItem where
  relativePath : WString
  transferKey : Int
deriving Repr, DecidableEq

/-- `CloudFilesProvider::OnFetchData`: if `m_fetchDataCallback` is set,
pushes exactly one work item capturing the path and transfer key onto
`m_workQueue`; otherwise it does nothing. The second component records
the application callbacks invoked during the handler itself — none in
either branch (the fetch source runs only later, on the worker). -/
def OnFetchData (fetchDataCallback : Option (WString → ByteBuffer))
    (workQueue : List FetchWorkItem) (normalizedPath : WString)
    (requiredFileOffset : Int) : List FetchWorkItem × List WString :=
  match fetchDataCallback with
  | some _ => (workQueue ++ [⟨normalizedPath, requiredFileOffset⟩], [])
  | none => (workQueue, [])

/-- Running the lambda enqueued by `OnFetchData`: invokes the fetch
source on the captured path (first component: the path it was invoked
on), then issues one `CfExecute` transfer carrying the returned bytes,
the captured transfer key, `Offset.QuadPart = 0` and
`CompletionStatus = STATUS_SUCCESS` on the provider's connection. -/
def runFetchWorkItem (fetchDataCallback : WString → ByteBuffer)
    (connectionKey : Int) (item : FetchWorkItem) : WString × TransferCmd :=
  let data := fetchDataCallback item.relativePath
  (item.relativePath,
   ⟨connectionKey, item.transferKey, data, data.length, 0, STATUS_SUCCESS⟩)

/-- How one work item's execution ends: normally with an `HRESULT` from
its internal host call (a failing `CfExecute` is merely logged inside the
item), or by raising a C++ exception that the item does not catch. -/
inductive ItemOutcome
  | ok (hr : Int)
  | raises
deriving Repr, DecidableEq

/-- A tagged work item together with how its execution ends. -/
structure ExcItem where
  tag : Nat
  outcome : ItemOutcome
deriving Repr, DecidableEq

/-- The inner drain loop of the worker thread started by `Initialize`
(lines 42-50), run over a batch of queued items. The loop body calls
`work()` with no try/catch, so an exception raised by an item propagates
out of the thread function and terminates the worker: the result is the
list of tags of items that ran to completion, paired with `true` iff the
loop was torn down by an uncaught exception. -/
def drainBatch : List ExcItem → List Nat × Bool
  | [] => ([], false)
  | i :: rest =>
    match i.outcome with
    | .ok _ => ((drainBatch rest).1.cons i.tag, (drainBatch rest).2)
    | .raises => ([], true)

/-- State of the work queue and the worker loop spawned by `Initialize`:
the queued item tags in FIFO order (`m_workQueue`), all tags ever
submitted in submission order, the tags executed in execution order, the
next fresh tag, `m_shouldStop`, the item the worker has popped and is
executing outside the lock, and whether the worker loop has returned. -/
structure WorkerState where
  queue : List Nat
  submitted : List Nat
  executed : List Nat
  nextId : Nat
  shouldStop : Bool
  inFlight : Option Nat
  returned : Bool
deriving Repr, DecidableEq

/-- The atomic lock-protected events of the producer/worker system:

* `enqueue` — `OnFetchData` appends a fresh item under `m_queueMutex`;
* `pop` — the worker, holding the lock with the inner-loop guard
  `!m_workQueue.empty() && !m_shouldStop` true, takes the front item and
  releases the lock;
* `exec` — the worker finishes running the popped item outside the lock;
* `requestStop` — `Shutdown` sets `m_shouldStop` under the lock;
* `exit` — the worker, holding no popped item and seeing
  `m_shouldStop`, leaves both loops and the thread function returns. -/
inductive WStep : WorkerState → WorkerState → Prop
  | enqueue (s : WorkerState) :
      WStep s { s with queue := s.queue ++ [s.nextId],
                       submitted := s.submitted ++ [s.nextId],
                       nextId := s.nextId + 1 }
  | pop (s : WorkerState) (x : Nat) (rest : List Nat)
      (hq : s.queue = x :: rest) (hf : s.inFlight = none)
      (hstop : s.shouldStop = false) (hret : s.returned = false) :
      WStep s { s with queue := rest, inFlight := some x }
  | exec (s : WorkerState) (x : Nat) (hf : s.inFlight = some x) :
      WStep s { s with executed := s.executed ++ [x], inFlight := none }
  | requestStop (s : WorkerState) :
      WStep s { s with shouldStop := true }
  | exit (s : WorkerState) (hf : s.inFlight = none)
      (hstop : s.shouldStop = true) (hret : s.returned = false) :
      WStep s { s with returned := true }

/-- The provider's initial queue/worker state right after `Initialize`. -/
def workerInit : WorkerState := ⟨[], [], [], 0, false, none, false⟩

/-- A queue/worker state reachable from `workerInit` by provider events. -/
def Reachable (s : WorkerState) : Prop :=
  Relation.ReflTransGen WStep workerInit s

/-- The inductive invariant of the queue/worker system: the submission
sequence is exactly the executed items, followed by the in-flight item,
followed by the queue, and the submitted tags are the fresh tags
`0, 1, ..., nextId - 1` in order. -/
def WInv (s : WorkerState) : Prop :=
  s.submitted = s.executed ++ s.inFlight.toList ++ s.queue ∧
  s.submitted = List.range s.nextId

/-- The `E_FAIL` generic failure `HRESULT` (signed 32-bit value). -/
def E_FAIL : Int := -2147467259

/-- A nonzero Win32 error code always maps to a failing `HRESULT`. -/
theorem HRESULT_FROM_WIN32_failed (e : Nat) (he : e ≠ 0) :
    FAILED (HRESULT_FROM_WIN32 e) := by
  unfold FAILED HRESULT_FROM_WIN32
  rw [if_neg he]
  omega

/-- `natToLEBytes` produces exactly `k` bytes. -/
theorem natToLEBytes_length (n k : Nat) : (natToLEBytes n k).length = k := by
  induction k generalizing n with
  | zero => rfl
  | succ k ih => simp [natToLEBytes, ih]

/-- C6: disconnecting is idempotent. When `m_connectionKey` already holds
`CF_CONNECTION_KEY_INVALID` the guarded disconnect block is a no-op that
makes no host call; after any disconnect the key holds the sentinel, so a
second disconnect is always a no-op; and no `CfDisconnectSyncRoot` call
ever receives the sentinel. -/
theorem disconnect_idempotent (key : Int) :
    (key = CF_CONNECTION_KEY_INVALID →
      disconnectIfConnected key = (key, [])) ∧
    (disconnectIfConnected key).1 = CF_CONNECTION_KEY_INVALID ∧
    disconnectIfConnected (disconnectIfConnected key).1 =
      (CF_CONNECTION_KEY_INVALID, []) ∧
    ∀ c ∈ (disconnectIfConnected key).2, c ≠ CF_CONNECTION_KEY_INVALID := by
  by_cases h : key = CF_CONNECTION_KEY_INVALID <;>
    simp [disconnectIfConnected, h]

/-- Witness for `disconnect_idempotent` at the sentinel key: the no-op
branch makes no host call and leaves the key invalid. -/
theorem disconnect_idempotent_witness :
    disconnectIfConnected CF_CONNECTION_KEY_INVALID =
      (CF_CONNECTION_KEY_INVALID, []) ∧
    (disconnectIfConnected CF_CONNECTION_KEY_INVALID).1 =
      CF_CONNECTION_KEY_INVALID ∧
    ∀ c ∈ (disconnectIfConnected CF_CONNECTION_KEY_INVALID).2,
      c ≠ CF_CONNECTION_KEY_INVALID :=
  ⟨(disconnect_idempotent CF_CONNECTION_KEY_INVALID).1 rfl,
   (disconnect_idempotent CF_CONNECTION_KEY_INVALID).2.1,
   (disconnect_idempotent CF_CONNECTION_KEY_INVALID).2.2.2⟩

/-- C7 counterexample: with a connected provider and the host's
`CfUnregisterSyncRoot` failing with `E_FAIL`, `UnregisterSyncRoot`
returns that failing host status as its own result (`return hr;` at line
154), so the failure IS escalated to the caller, contradicting the
claim's best-effort reading. -/
theorem UnregisterSyncRoot_escalates_counterexample :
    (UnregisterSyncRoot 5 [97] E_FAIL).hr = E_FAIL ∧
    FAILED (UnregisterSyncRoot 5 [97] E_FAIL).hr := by
  constructor
  · rfl
  · decide

/-- C7 amended: `UnregisterSyncRoot` disconnects first exactly when a
connection is still held, leaves the key at the sentinel, asks the host
to drop the registration, logs a report exactly when the host fails, and
returns the host's status unchanged (a host failure is therefore
propagated to the caller, not swallowed). -/
theorem UnregisterSyncRoot_spec (key : Int) (path : WString) (hres : Int) :
    (UnregisterSyncRoot key path hres).hr = hres ∧
    (UnregisterSyncRoot key path hres).disconnectCalls =
      (if key = CF_CONNECTION_KEY_INVALID then [] else [key]) ∧
    (UnregisterSyncRoot key path hres).connectionKey =
      CF_CONNECTION_KEY_INVALID ∧
    (UnregisterSyncRoot key path hres).unregisterCalls = [path] ∧
    ((UnregisterSyncRoot key path hres).reported = true ↔ FAILED hres) := by
  by_cases h : key = CF_CONNECTION_KEY_INVALID <;>
    simp [UnregisterSyncRoot, disconnectIfConnected, FAILED, h]

/-- C8: the placeholder identity derivation is deterministic: equal
relative paths yield equal placeholder info, in particular equal identity
bytes and equal identity length, and the identity is always exactly
`sizeof(size_t) = 8` bytes. -/
theorem CreatePlaceholderInfo_deterministic (p q : WString) (h : p = q) :
    CreatePlaceholderInfo p = CreatePlaceholderInfo q ∧
    (CreatePlaceholderInfo p).fileIdentity =
      (CreatePlaceholderInfo q).fileIdentity ∧
    (CreatePlaceholderInfo p).fileIdentityLength =
      (CreatePlaceholderInfo q).fileIdentityLength ∧
    (CreatePlaceholderInfo p).fileIdentityLength = 8 ∧
    (CreatePlaceholderInfo p).fileIdentity.length = 8 := by
  subst h
  exact ⟨rfl, rfl, rfl, rfl, natToLEBytes_length _ 8⟩

/-- Witness for `CreatePlaceholderInfo_deterministic` on the concrete
path "docs" (code units of `d`, `o`, `c`, `s`). -/
theorem CreatePlaceholderInfo_deterministic_witness :
    CreatePlaceholderInfo [100, 111, 99, 115] =
      CreatePlaceholderInfo [100, 111, 99, 115] ∧
    (CreatePlaceholderInfo [100, 111, 99, 115]).fileIdentity =
      (CreatePlaceholderInfo [100, 111, 99, 115]).fileIdentity ∧
    (CreatePlaceholderInfo [100, 111, 99, 115]).fileIdentityLength =
      (CreatePlaceholderInfo [100, 111, 99, 115]).fileIdentityLength ∧
    (CreatePlaceholderInfo [100, 111, 99, 115]).fileIdentityLength = 8 ∧
    (CreatePlaceholderInfo [100, 111, 99, 115]).fileIdentity.length = 8 :=
  CreatePlaceholderInfo_deterministic [100, 111, 99, 115]
    [100, 111, 99, 115] rfl

/-- `HydrateFile` always targets the full path derived from the stored
sync-root path. -/
theorem HydrateFile_targetPath (s : ProvState) (rel : WString)
    (env : FileOpEnv) (data : ByteBuffer) (b : Bool) :
    (HydrateFile s rel env data b).targetPath = GetFullPath s rel := by
  unfold HydrateFile
  cases env.openHandle <;> rfl

/-- C10: `RegisterSyncRoot` overwrites `m_syncRootPath` with its argument
before any directory creation or host registration, so in every outcome
(directory failure, host registration failure, connect failure, success)
the stored sync-root path equals the argument, and `GetFullPath`,
`HydrateFile`, `SetInSyncState`, `SetPinState` and `CreatePlaceholder`
subsequently resolve against that stored path. -/
theorem RegisterSyncRoot_stores_path_first (s : ProvState) (env : RegEnv)
    (path rel : WString) (fenv : FileOpEnv) (data : ByteBuffer) (b : Bool)
    (hres : Int) :
    ((RegisterSyncRoot s env path).1).syncRootPath = path ∧
    GetFullPath (RegisterSyncRoot s env path).1 rel = path ++ [92] ++ rel ∧
    (HydrateFile (RegisterSyncRoot s env path).1 rel fenv data b).targetPath
      = path ++ [92] ++ rel ∧
    (SetInSyncState (RegisterSyncRoot s env path).1 rel fenv).targetPath
      = path ++ [92] ++ rel ∧
    (SetPinState (RegisterSyncRoot s env path).1 rel fenv).targetPath
      = path ++ [92] ++ rel ∧
    (CreatePlaceholder (RegisterSyncRoot s env path).1 rel hres).syncRootPath
      = path := by
  have hsync : ((RegisterSyncRoot s env path).1).syncRootPath = path := by
    unfold RegisterSyncRoot
    cases env.createDir <;> dsimp only <;> (try split) <;> (try split) <;> rfl
  have hfull : GetFullPath (RegisterSyncRoot s env path).1 rel =
      path ++ [92] ++ rel := by
    unfold GetFullPath
    rw [hsync]
  refine ⟨hsync, hfull, ?_, ?_, ?_, ?_⟩
  · rw [HydrateFile_targetPath, hfull]
  · unfold SetInSyncState
    cases fenv.openHandle <;> simpa using hfull
  · unfold SetPinState
    cases fenv.openHandle <;> simpa using hfull
  · exact hsync

/-- C5: when `HydrateFile` opens its target successfully, it issues the
transfer at offset 0 with length equal to the buffer length and success
completion status, invokes the progress callback exactly once with `1.0`,
closes the handle regardless of the transfer outcome, and returns the
host transfer status (success when the transfer succeeded, the failing
status when it failed); when the file cannot be opened (with a nonzero
`GetLastError`), the operation returns a failure having issued no
transfer and holding no handle to release. -/
theorem HydrateFile_spec (s : ProvState) (rel : WString) (env : FileOpEnv)
    (data : ByteBuffer) :
    (∀ h, env.openHandle = some h →
      (HydrateFile s rel env data true).transfers =
        [⟨s.connectionKey, CF_TRANSFER_KEY_INVALID, data, data.length, 0,
          STATUS_SUCCESS⟩] ∧
      (HydrateFile s rel env data true).progressCalls = [1] ∧
      (HydrateFile s rel env data true).closedHandles = [h] ∧
      (HydrateFile s rel env data true).hr = env.hostResult ∧
      (¬ FAILED env.hostResult → ¬ FAILED (HydrateFile s rel env data true).hr) ∧
      (FAILED env.hostResult → FAILED (HydrateFile s rel env data true).hr)) ∧
    (env.openHandle = none → env.lastError ≠ 0 →
      FAILED (HydrateFile s rel env data true).hr ∧
      (HydrateFile s rel env data true).transfers = [] ∧
      (HydrateFile s rel env data true).closedHandles = []) := by
  constructor
  · intro h hh
    unfold HydrateFile
    rw [hh]
    exact ⟨rfl, rfl, rfl, rfl, fun a => a, fun a => a⟩
  · intro hh he
    unfold HydrateFile
    rw [hh]
    exact ⟨HRESULT_FROM_WIN32_failed _ he, rfl, rfl⟩

/-- Witness for `HydrateFile_spec`: a concrete successful hydration of a
two-byte buffer through handle 7 issues the full-buffer transfer, calls
the progress callback once with `1.0`, closes handle 7 and reports
success; a concrete failed open (error 2, file not found) returns a
failure with no transfer and nothing to close. -/
theorem HydrateFile_spec_witness :
    ((HydrateFile ⟨[99], 3⟩ [100] ⟨some 7, 0, 0⟩ [10, 11] true).transfers =
      [⟨3, CF_TRANSFER_KEY_INVALID, [10, 11], 2, 0, STATUS_SUCCESS⟩] ∧
     (HydrateFile ⟨[99], 3⟩ [100] ⟨some 7, 0, 0⟩ [10, 11] true).progressCalls
       = [1] ∧
     (HydrateFile ⟨[99], 3⟩ [100] ⟨some 7, 0, 0⟩ [10, 11] true).closedHandles
       = [7] ∧
     (HydrateFile ⟨[99], 3⟩ [100] ⟨some 7, 0, 0⟩ [10, 11] true).hr = 0) ∧
    (FAILED (HydrateFile ⟨[99], 3⟩ [100] ⟨none, 2, 0⟩ [10, 11] true).hr ∧
     (HydrateFile ⟨[99], 3⟩ [100] ⟨none, 2, 0⟩ [10, 11] true).transfers = [] ∧
     (HydrateFile ⟨[99], 3⟩ [100] ⟨none, 2, 0⟩ [10, 11] true).closedHandles
       = []) := by
  have Hok := (HydrateFile_spec ⟨[99], 3⟩ [100] ⟨some 7, 0, 0⟩ [10, 11]).1
    7 rfl
  have Hfail := (HydrateFile_spec ⟨[99], 3⟩ [100] ⟨none, 2, 0⟩ [10, 11]).2
    rfl (by norm_num)
  exact ⟨⟨Hok.1, Hok.2.1, Hok.2.2.1, Hok.2.2.2.1⟩, Hfail⟩

/-- C9: when the target file opens successfully but the host transfer
call fails, `HydrateFile` still invokes the supplied progress callback
exactly once with `1.0` (the call sits after `CloseHandle` and is not
guarded by the transfer result) while returning the failing transfer
status. -/
theorem HydrateFile_progress_on_transfer_failure (s : ProvState)
    (rel : WString) (env : FileOpEnv) (data : ByteBuffer) (h : Nat)
    (hh : env.openHandle = some h) (hf : FAILED env.hostResult) :
    (HydrateFile s rel env data true).progressCalls = [1] ∧
    (HydrateFile s rel env data true).hr = env.hostResult ∧
    FAILED (HydrateFile s rel env data true).hr ∧
    (HydrateFile s rel env data true).closedHandles = [h] := by
  unfold HydrateFile
  rw [hh]
  exact ⟨rfl, rfl, hf, rfl⟩

/-- Witness for `HydrateFile_progress_on_transfer_failure`: with handle 7
open and the host transfer failing with `E_FAIL`, the progress callback
still fires once with `1.0`, the handle is closed, and the operation
returns the failure. -/
theorem HydrateFile_progress_on_transfer_failure_witness :
    (HydrateFile ⟨[99], 3⟩ [100] ⟨some 7, 0, E_FAIL⟩ [10, 11] true).progressCalls
      = [1] ∧
    (HydrateFile ⟨[99], 3⟩ [100] ⟨some 7, 0, E_FAIL⟩ [10, 11] true).hr
      = E_FAIL ∧
    FAILED (HydrateFile ⟨[99], 3⟩ [100] ⟨some 7, 0, E_FAIL⟩ [10, 11] true).hr ∧
    (HydrateFile ⟨[99], 3⟩ [100] ⟨some 7, 0, E_FAIL⟩ [10, 11] true).closedHandles
      = [7] :=
  HydrateFile_progress_on_transfer_failure ⟨[99], 3⟩ [100]
    ⟨some 7, 0, E_FAIL⟩ [10, 11] 7 rfl (by decide)

/-- C4: if no fetch source is configured, `OnFetchData` leaves the work
queue unchanged and invokes no application callback; if one is
configured, exactly one work item capturing the normalized path and the
transfer key is appended (still with no immediate application call), and
running that item invokes the fetch source on the captured path and then
issues one transfer command carrying the returned bytes, the captured
key, offset 0 and the success completion status. -/
theorem OnFetchData_spec (cb : Option (WString → ByteBuffer))
    (q : List FetchWorkItem) (path : WString) (off ck : Int) :
    (cb = none → OnFetchData cb q path off = (q, [])) ∧
    (∀ f, cb = some f →
      (OnFetchData cb q path off).1 = q ++ [⟨path, off⟩] ∧
      (OnFetchData cb q path off).2 = [] ∧
      (runFetchWorkItem f ck ⟨path, off⟩).1 = path ∧
      (runFetchWorkItem f ck ⟨path, off⟩).2 =
        ⟨ck, off, f path, (f path).length, 0, STATUS_SUCCESS⟩) := by
  constructor
  · intro h
    rw [h]
    rfl
  · intro f h
    subst h
    exact ⟨rfl, rfl, rfl, rfl⟩

/-- Witness for `OnFetchData_spec`: with no fetch source the handler is a
no-op on an empty queue; with a constant fetch source returning three
bytes, the handler enqueues the single capturing item and running it
produces the fetch invocation and the success transfer. -/
theorem OnFetchData_spec_witness :
    OnFetchData none [] [100] 4 = ([], []) ∧
    (OnFetchData (some fun _ => [1, 2, 3]) [] [100] 4).1 = [⟨[100], 4⟩] ∧
    (OnFetchData (some fun _ => [1, 2, 3]) [] [100] 4).2 = [] ∧
    (runFetchWorkItem (fun _ => [1, 2, 3]) 9 ⟨[100], 4⟩).1 = [100] ∧
    (runFetchWorkItem (fun _ => [1, 2, 3]) 9 ⟨[100], 4⟩).2 =
      ⟨9, 4, [1, 2, 3], 3, 0, STATUS_SUCCESS⟩ := by
  have Hnone := (OnFetchData_spec none [] [100] 4 9).1 rfl
  have Hsome := (OnFetchData_spec (some fun _ => [1, 2, 3]) [] [100] 4 9).2
    (fun _ => [1, 2, 3]) rfl
  exact ⟨Hnone, Hsome.1, Hsome.2.1, Hsome.2.2.1, Hsome.2.2.2⟩

/-- C2 counterexample: the worker body calls `work()` with no try/catch
(lines 42-50), so a batch whose first item raises tears the loop down:
the subsequently queued item (tag 1) is never executed and the loop is
terminated by the uncaught exception, contradicting the claim that
per-item errors are caught and subsequent items still run. -/
theorem drainBatch_uncaught_raise_counterexample :
    (drainBatch [⟨0, .raises⟩, ⟨1, .ok 0⟩]).2 = true ∧
    1 ∉ (drainBatch [⟨0, .raises⟩, ⟨1, .ok 0⟩]).1 := by
  decide

/-- C2 amended: per-item error handling exists only for errors surfaced
as `HRESULT`s — a failing `CfExecute` inside an item is logged by the
item itself and the loop continues, so when every item ends normally
(even with failing host statuses) the worker executes all of them in
order and does not crash; an exception raised by an item, however, is
not caught by the loop. -/
theorem drainBatch_survives_hresult_failures (l : List ExcItem)
    (h : ∀ i ∈ l, ∃ hr, i.outcome = ItemOutcome.ok hr) :
    (drainBatch l).1 = l.map ExcItem.tag ∧ (drainBatch l).2 = false := by
  induction l with
  | nil => exact ⟨rfl, rfl⟩
  | cons i rest ih =>
    obtain ⟨hr, hi⟩ := h i (List.mem_cons_self _ _)
    obtain ⟨h1, h2⟩ := ih (fun j hj => h j (List.mem_cons_of_mem _ hj))
    simp [drainBatch, hi, h1, h2]

/-- Witness for `drainBatch_survives_hresult_failures`: a batch whose
middle item's host call fails with `E_FAIL` still executes all three
items in order with no crash. -/
theorem drainBatch_survives_hresult_failures_witness :
    (drainBatch [⟨0, .ok 0⟩, ⟨1, .ok E_FAIL⟩, ⟨2, .ok 0⟩]).1 = [0, 1, 2] ∧
    (drainBatch [⟨0, .ok 0⟩, ⟨1, .ok E_FAIL⟩, ⟨2, .ok 0⟩]).2 = false := by
  have hcond : ∀ i ∈ ([⟨0, .ok 0⟩, ⟨1, .ok E_FAIL⟩, ⟨2, .ok 0⟩] :
      List ExcItem), ∃ hr, i.outcome = ItemOutcome.ok hr := by
    intro i hi
    simp only [List.mem_cons, List.not_mem_nil, or_false] at hi
    rcases hi with h | h | h <;> subst h <;> exact ⟨_, rfl⟩
  exact drainBatch_survives_hresult_failures _ hcond

/-- Each provider event preserves the queue/worker invariant. -/
theorem WInv_step {s s' : WorkerState} (h : WStep s s') (hinv : WInv s) :
    WInv s' := by
  obtain ⟨h1, h2⟩ := hinv
  cases h with
  | enqueue =>
    refine ⟨?_, ?_⟩
    · simp [h1, List.append_assoc]
    · simp [h2, List.range_succ]
  | pop x rest hq hf hstop hret =>
    refine ⟨?_, h2⟩
    simp only [h1, hq, hf, Option.toList]
    simp
  | exec x hf =>
    refine ⟨?_, h2⟩
    simp only [h1, hf, Option.toList]
    simp
  | requestStop => exact ⟨h1, h2⟩
  | exit hf hstop hret => exact ⟨h1, h2⟩

/-- The queue/worker invariant holds in every reachable state. -/
theorem WInv_reachable {s : WorkerState} (h : Reachable s) : WInv s := by
  unfold Reachable at h
  induction h with
  | refl => exact ⟨rfl, rfl⟩
  | tail hsteps hstep ih => exact WInv_step hstep ih

/-- C1: in every reachable queue/worker state, the submission sequence is
exactly the executed items (in execution order) followed by the in-flight
item and the still-queued items; in particular the executed sequence is
an initial segment of the submission sequence — the worker executes items
strictly in submission (FIFO) order — and contains no duplicates, so each
item is executed at most once and no item executed before a stop is
lost. -/
theorem worker_queue_fifo_at_most_once (s : WorkerState)
    (h : Reachable s) :
    s.submitted = s.executed ++ s.inFlight.toList ++ s.queue ∧
    (∃ t, s.submitted = s.executed ++ t) ∧
    s.executed.Nodup := by
  obtain ⟨h1, h2⟩ := WInv_reachable h
  refine ⟨h1, ⟨s.inFlight.toList ++ s.queue, by rw [h1, List.append_assoc]⟩,
    ?_⟩
  have hnd : s.submitted.Nodup := by
    rw [h2]; exact List.nodup_range _
  rw [h1, List.append_assoc] at hnd
  exact hnd.of_append_left

/-- Witness state for the C1 theorem: the state reached from
`workerInit` after one `OnFetchData` enqueue, one worker pop and one
item execution. -/
def workerWitnessState : WorkerState := ⟨[], [0], [0], 1, false, none, false⟩

/-- Witness for `worker_queue_fifo_at_most_once` on a concrete
three-event trace: enqueue item 0, pop it, execute it. -/
theorem worker_queue_fifo_at_most_once_witness :
    workerWitnessState.submitted = workerWitnessState.executed ++
      workerWitnessState.inFlight.toList ++ workerWitnessState.queue ∧
    (∃ t, workerWitnessState.submitted = workerWitnessState.executed ++ t) ∧
    workerWitnessState.executed.Nodup := by
  refine worker_queue_fifo_at_most_once workerWitnessState ?_
  have s1 : WStep workerInit ⟨[0], [0], [], 1, false, none, false⟩ :=
    WStep.enqueue workerInit
  have s2 : WStep ⟨[0], [0], [], 1, false, none, false⟩
      ⟨[], [0], [], 1, false, some 0, false⟩ :=
    WStep.pop ⟨[0], [0], [], 1, false, none, false⟩ 0 [] rfl rfl rfl rfl
  have s3 : WStep ⟨[], [0], [], 1, false, some 0, false⟩ workerWitnessState :=
    WStep.exec ⟨[], [0], [], 1, false, some 0, false⟩ 0 rfl
  exact Relation.ReflTransGen.head s1 (Relation.ReflTransGen.head s2
    (Relation.ReflTransGen.single s3))

/-- Once `m_shouldStop` is set, a single event can no longer pop new
work: the flag stays set and the executed-plus-in-flight sequence is
unchanged (`exec` only moves the popped item into the executed list). -/
theorem WStep_after_stop {s s' : WorkerState} (h : WStep s s')
    (hstop : s.shouldStop = true) :
    s'.shouldStop = true ∧
    s'.executed ++ s'.inFlight.toList = s.executed ++ s.inFlight.toList := by
  cases h with
  | enqueue => exact ⟨hstop, rfl⟩
  | pop x rest hq hf hs hret => simp [hs] at hstop
  | exec x hf =>
    refine ⟨hstop, ?_⟩
    simp [hf]
  | requestStop => exact ⟨rfl, rfl⟩
  | exit hf hs hret => exact ⟨hstop, rfl⟩

/-- Multi-step version of `WStep_after_stop`. -/
theorem WSteps_after_stop {s s' : WorkerState}
    (h : Relation.ReflTransGen WStep s s') (hstop : s.shouldStop = true) :
    s'.shouldStop = true ∧
    s'.executed ++ s'.inFlight.toList = s.executed ++ s.inFlight.toList := by
  induction h with
  | refl => exact ⟨hstop, rfl⟩
  | tail hsteps hstep ih =>
    obtain ⟨ih1, ih2⟩ := ih
    obtain ⟨a, b⟩ := WStep_after_stop hstep ih1
    exact ⟨a, b.trans ih2⟩

/-- C3: from any reachable state in which `Shutdown` has set
`m_shouldStop` while one item is in flight and M items remain queued:
(safety) along every continuation the executed sequence grows by at most
the in-flight item and none of the still-queued items is ever executed;
(progress) there is a continuation — finish the in-flight item, observe
the stop flag, leave both loops — in which exactly the in-flight item
completes and the worker loop returns. -/
theorem shutdown_completes_in_flight_only (s0 : WorkerState) (x : Nat)
    (hreach : Reachable s0) (hstop : s0.shouldStop = true)
    (hf : s0.inFlight = some x) (hret : s0.returned = false) :
    (∀ s', Relation.ReflTransGen WStep s0 s' →
      (s'.executed = s0.executed ∨ s'.executed = s0.executed ++ [x]) ∧
      ∀ y ∈ s0.queue, y ∉ s'.executed) ∧
    (∃ s', Relation.ReflTransGen WStep s0 s' ∧ s'.returned = true ∧
      s'.executed = s0.executed ++ [x]) := by
  obtain ⟨h1, h2⟩ := WInv_reachable hreach
  rw [hf] at h1
  simp only [Option.toList] at h1
  have hnd : s0.submitted.Nodup := by
    rw [h2]; exact List.nodup_range _
  rw [h1] at hnd
  have hdisj : ∀ y ∈ s0.queue, y ∉ s0.executed ++ [x] := by
    intro y hy hmem
    exact (List.disjoint_of_nodup_append hnd) hmem hy
  constructor
  · intro s' htr
    obtain ⟨hstop', hfix⟩ := WSteps_after_stop htr hstop
    rw [hf] at hfix
    simp only [Option.toList] at hfix
    cases hfl : s'.inFlight with
    | none =>
      rw [hfl] at hfix
      simp only [Option.toList, List.append_nil] at hfix
      refine ⟨Or.inr hfix, ?_⟩
      intro y hy hmem
      exact hdisj y hy (hfix ▸ hmem)
    | some y0 =>
      rw [hfl] at hfix
      simp only [Option.toList] at hfix
      obtain ⟨he, _⟩ := List.append_inj' hfix rfl
      refine ⟨Or.inl he, ?_⟩
      intro y hy hmem
      apply hdisj y hy
      rw [he] at hmem
      exact List.mem_append_left _ hmem
  · have st1 : WStep s0
        { s0 with executed := s0.executed ++ [x], inFlight := none } :=
      WStep.exec s0 x hf
    have st2 : WStep
        { s0 with executed := s0.executed ++ [x], inFlight := none }
        { s0 with executed := s0.executed ++ [x], inFlight := none, returned := true } :=
      WStep.exit _ rfl hstop hret
    exact ⟨{ s0 with executed := s0.executed ++ [x], inFlight := none, returned := true },
      Relation.ReflTransGen.head st1 (Relation.ReflTransGen.single st2),
      rfl, rfl⟩

/-- Witness state for the C3 theorem: reached from `workerInit` by
enqueuing items 0 and 1, the worker popping item 0, and `Shutdown`
setting the stop flag — so one item is in flight and M = 1 item remains
queued. -/
def workerStopState : WorkerState := ⟨[1], [0, 1], [], 2, true, some 0, false⟩

/-- Witness for `shutdown_completes_in_flight_only` at the concrete
stop state `workerStopState`: only the in-flight item 0 can still
complete, the queued item 1 is never executed, and the loop reaches a
returned state having executed exactly item 0. -/
theorem shutdown_completes_in_flight_only_witness :
    (∀ s', Relation.ReflTransGen WStep workerStopState s' →
      (s'.executed = workerStopState.executed ∨
       s'.executed = workerStopState.executed ++ [0]) ∧
      ∀ y ∈ workerStopState.queue, y ∉ s'.executed) ∧
    (∃ s', Relation.ReflTransGen WStep workerStopState s' ∧
      s'.returned = true ∧
      s'.executed = workerStopState.executed ++ [0]) := by
  refine shutdown_completes_in_flight_only workerStopState 0 ?_ rfl rfl rfl
  have s1 : WStep workerInit ⟨[0], [0], [], 1, false, none, false⟩ :=
    WStep.enqueue workerInit
  have s2 : WStep ⟨[0], [0], [], 1, false, none, false⟩
      ⟨[0, 1], [0, 1], [], 2, false, none, false⟩ :=
    WStep.enqueue ⟨[0], [0], [], 1, false, none, false⟩
  have s3 : WStep ⟨[0, 1], [0, 1], [], 2, false, none, false⟩
      ⟨[1], [0, 1], [], 2, false, some 0, false⟩ :=
    WStep.pop ⟨[0, 1], [0, 1], [], 2, false, none, false⟩ 0 [1] rfl rfl rfl
      rfl
  have s4 : WStep ⟨[1], [0, 1], [], 2, false, some 0, false⟩
      workerStopState :=
    WStep.requestStop ⟨[1], [0, 1], [], 2, false, some 0, false⟩
  exact Relation.ReflTransGen.head s1 (Relation.ReflTransGen.head s2
    (Relation.ReflTransGen.head s3 (Relation.ReflTransGen.single s4)))
